import Mathlib

/-!
# Verification of the rapid-card-lister condition-scoring pipeline

Shallow embedding of the card analyzer (`src/unnamed/part_000`, the
`cardAnalyzer` module: `extractCardText`, `performOCR`, `searchTCGPlayer`,
`searchSportsCard`, `mergeBack` step of `analyzeCard`, `analyzeCard` itself,
and the four feature extractors `calculateCentering`, `calculateCornersScore`,
`calculateEdgesScore`, `calculateSurfaceScore`).

Modelling conventions:
* JavaScript numbers that can be NaN are modelled as `JSNum := Option ℝ`
  with `none` standing for NaN; arithmetic on `JSNum` propagates `none`
  exactly as JS arithmetic propagates NaN.
* JS strings are Lean `String`s; `s.includes(t)` is substring containment,
  `s || t` on strings is `if s = "" then t else s` (empty string is falsy).
* The OCR collaborator (Tesseract) is a parameter `ocr : String → Option String`:
  `some text` models a successful `recognize` call, `none` models the
  collaborator throwing.  The image-decode collaborator is a parameter
  `decode : String → Except String Grid`.
* The normalized 224×224×3 image is `Grid := Nat → Nat → Nat → ℝ`
  (row, column, channel), meaningful on indices `< 224`, `< 224`, `< 3`.
-/

/-! ## Card metadata model (`CardDetails` of cardAnalyzer) -/

inductive CardCategory where
  | sports
  | trading
deriving DecidableEq

/-- The fields of `CardDetails` that the analyzer reads or writes
(`type`, `rarity`, `tcgplayerId`, `sportsCardId`, `imageUrl` are never
assigned by this version of the code and are omitted). -/
structure CardDetails where
  name : String
  set : String
  number : String
  isConfirmed : Bool
  cardType : Option CardCategory
deriving DecidableEq

/-- JS `s.includes(sub)`: substring containment. -/
def jsIncludes (s sub : String) : Bool := decide (sub.toList <:+: s.toList)

/-- JS `s.trim()`: strip whitespace from both ends. -/
def jsTrim (s : String) : String :=
  String.mk (((s.toList.dropWhile Char.isWhitespace).reverse.dropWhile
    Char.isWhitespace).reverse)

/-- JS `s.toLowerCase()` (ASCII range, which is all the heuristics compare). -/
def jsToLower (s : String) : String := String.mk (s.toList.map Char.toLower)

/-- JS `text.split('\n')` as a list of character lists. -/
def splitLines : List Char → List (List Char)
  | [] => [[]]
  | c :: rest =>
    if c = '\n' then [] :: splitLines rest
    else match splitLines rest with
      | [] => [[c]]
      | h :: t => (c :: h) :: t

/-- JS `a || b` on strings: the empty string is falsy. -/
def jsOrElse (a b : String) : String := if a = "" then b else a

/-- Test for the regex `/\d{3,}/`: some run of three consecutive digits. -/
def hasDigitRun3 : List Char → Bool
  | a :: b :: c :: rest => (a.isDigit && b.isDigit && c.isDigit) || hasDigitRun3 (b :: c :: rest)
  | _ => false

/-- `text.split('\n').map(l => l.trim()).filter(Boolean)` -/
def linesOf (text : String) : List String :=
  (((splitLines text.toList).map String.mk).map jsTrim).filter (fun l => l ≠ "")

/-- The filter applied to the first three lines when choosing the name:
`line.length > 3 && !line.includes('©') && !line.match(/\d{3,}/) &&
!line.toLowerCase().includes('set') && !line.toLowerCase().includes('series')`. -/
def namePred (line : String) : Bool :=
  decide (line.length > 3) && !(jsIncludes line "©") && !(hasDigitRun3 line.toList) &&
    !(jsIncludes (jsToLower line) "set") && !(jsIncludes (jsToLower line) "series")

/-- The match of `/(\d+\/\d+|\d+)/` starting at a position whose first
character is a digit: a maximal digit run, extended across a `/` to a second
digit run when one immediately follows. -/
def numberAt (l : List Char) : String :=
  let run := l.takeWhile Char.isDigit
  match l.drop run.length with
  | '/' :: r2 =>
    let run2 := r2.takeWhile Char.isDigit
    if run2 = [] then String.mk run else String.mk (run ++ '/' :: run2)
  | _ => String.mk run

/-- `line.match(/(\d+\/\d+|\d+)/)`: the leftmost match, if any. -/
def numberMatchStr : List Char → Option String
  | [] => none
  | c :: rest => if c.isDigit then some (numberAt (c :: rest)) else numberMatchStr rest

/-- `!line.toLowerCase().includes('year') && !line.toLowerCase().includes('season')` -/
def yearSeasonOk (line : String) : Bool :=
  !(jsIncludes (jsToLower line) "year") && !(jsIncludes (jsToLower line) "season")

/-- One step of the number loop: the value this line contributes, if any. -/
def lineNumberValue (line : String) : Option String :=
  match numberMatchStr line.toList with
  | some m => if yearSeasonOk line then some m else none
  | none => none

/-- Which alternative of `(set|series|©.*?)` (case-insensitive) matches at the
start of the character list, and its length.  The regex alternation tries
`set`, then `series`, then `©` (with a lazy tail that matches empty). -/
def setTokenLen (l : List Char) : Option Nat :=
  if List.isPrefixOf "set".toList (l.map Char.toLower) then some 3
  else if List.isPrefixOf "series".toList (l.map Char.toLower) then some 6
  else if l.head? = some '©' then some 1
  else none

/-- The capture `match[2]` of `/(set|series|©.*?)\s*(.*)/i` on a line without
newlines: scan left to right for the first position where an alternative of
group 1 matches, then drop the token and the following whitespace. -/
def setMatchRest : List Char → Option (List Char)
  | [] => none
  | c :: rest =>
    match setTokenLen (c :: rest) with
    | some n => some (((c :: rest).drop n).dropWhile Char.isWhitespace)
    | none => setMatchRest rest

/-- One step of the set loop: `match[2]?.trim() || 'Unknown Set'` when the
regex matches the line, nothing otherwise. -/
def lineSetValue (line : String) : Option String :=
  (setMatchRest line.toList).map (fun r => jsOrElse (jsTrim (String.mk r)) "Unknown Set")

def sportKeywords : List String := ["rookie", "season", "stats", "team", "record"]

def tradingKeywords : List String := ["pokemon", "magic", "yugioh", "mtg"]

/-- The pure body of `extractCardText` applied to the recognized text
(cardAnalyzer lines 400–450). -/
def extractFromText (text : String) : CardDetails :=
  let lines := linesOf text
  let possibleNames := (lines.take 3).filter namePred
  let name := match possibleNames with
    | [] => ""
    | n :: _ => n
  let number := (lines.findSome? lineNumberValue).getD ""
  let set := (lines.findSome? lineSetValue).getD ""
  let textLower := jsToLower text
  let cardType :=
    if sportKeywords.any (fun k => jsIncludes textLower k) then some CardCategory.sports
    else if tradingKeywords.any (fun k => jsIncludes textLower k) then some CardCategory.trading
    else none
  { name := name, set := set, number := number, isConfirmed := false, cardType := cardType }

/-- `extractCardText` (cardAnalyzer lines 394–460): run OCR; on success apply
the line heuristics, on a thrown error return the catch-branch sentinel. -/
def extractCardText (ocr : String → Option String) (imageData : String) : CardDetails :=
  match ocr imageData with
  | some text => extractFromText text
  | none =>
    { name := "Unknown Card", set := "Unknown Set", number := "Unknown",
      isConfirmed := false, cardType := none }

/-- `performOCR` (cardAnalyzer lines 382–392): returns the recognized text,
or the empty string when the collaborator throws. -/
def performOCR (ocr : String → Option String) (imageData : String) : String :=
  match ocr imageData with
  | some text => text
  | none => ""

/-! ## Marketplace search stubs and the identification step -/

/-- A `Partial<CardDetails>` as returned by the marketplace searches. -/
structure PartialCardDetails where
  name : Option String := none
  set : Option String := none
  number : Option String := none
  cardType : Option CardCategory := none

/-- `searchTCGPlayer` (cardAnalyzer lines 462–470): logs and returns `null`. -/
def searchTCGPlayer (_cardName _setName : String) : Option PartialCardDetails := none

/-- `searchSportsCard` (cardAnalyzer lines 472–480): logs and returns `null`. -/
def searchSportsCard (_playerName _cardNumber : String) : Option PartialCardDetails := none

/-- `{ ...cardDetails, ...match, isConfirmed: true }` -/
def applyPartial (cd : CardDetails) (m : PartialCardDetails) : CardDetails :=
  { name := (m.name).getD cd.name, set := (m.set).getD cd.set,
    number := (m.number).getD cd.number, isConfirmed := true,
    cardType := match m.cardType with | some t => some t | none => cd.cardType }

/-- The card-identification step of `analyzeCard` (lines 504–518). -/
def identifyCard (cd : CardDetails) : CardDetails :=
  match cd.cardType with
  | some CardCategory.trading =>
    match searchTCGPlayer cd.name cd.set with
    | some m => applyPartial cd m
    | none => cd
  | some CardCategory.sports =>
    match searchSportsCard cd.name cd.number with
    | some m => applyPartial cd m
    | none => cd
  | none => cd

/-- The back-pass merge of `analyzeCard` (lines 497–501):
`{ ...cardDetails, number: backDetails.number || cardDetails.number,
set: backDetails.set || cardDetails.set }`. -/
def mergeBack (front back : CardDetails) : CardDetails :=
  { front with number := jsOrElse back.number front.number,
               set := jsOrElse back.set front.set }

/-! ## JavaScript numbers with NaN

The numeric pipeline is real-valued (idealizing IEEE doubles as reals, with
NaN tracked explicitly), so its definitions live in a `noncomputable section`;
all concrete evaluations of them are done by explicit terms in proofs. -/

noncomputable section

/-- A JS number: `none` models NaN. -/
abbrev JSNum := Option ℝ

/-- JS `+` (NaN-propagating). -/
def jadd : JSNum → JSNum → JSNum
  | some a, some b => some (a + b)
  | _, _ => none

/-- JS `/` by a nonzero constant (NaN-propagating; never applied at 0 here). -/
def jdiv : JSNum → JSNum → JSNum
  | some a, some b => some (a / b)
  | _, _ => none

/-- `Number(x.toFixed(1))` on a real value: round to one decimal place. -/
def round1 (x : ℝ) : ℝ := ((round (10 * x) : ℤ) : ℝ) / 10

/-- `Number(x.toFixed(1))` on a JS number: `Number(NaN.toFixed(1))` is NaN. -/
def toFixed1 : JSNum → JSNum := Option.map round1

/-! ## The normalized image and the feature extractors -/

/-- The normalized image: row, column, channel (meaningful below 224/224/3),
values scaled to `[0,1]` by the normalizer. -/
abbrev Grid := Nat → Nat → Nat → ℝ

/-- The normalizer's invariant: all pixel values lie in `[0,1]`. -/
def ValidGrid (g : Grid) : Prop :=
  ∀ i j c, i < 224 → j < 224 → c < 3 → 0 ≤ g i j c ∧ g i j c ≤ 1

/-- `tensor.mean(-1)`: grayscale by averaging the three channels. -/
def gray (g : Grid) (i j : Nat) : ℝ := (g i j 0 + g i j 1 + g i j 2) / 3

/-- The zero padding used by `conv2d(..., 'same')`. -/
def grayPad (g : Grid) (i j : ℤ) : ℝ :=
  if 0 ≤ i ∧ i < 224 ∧ 0 ≤ j ∧ j < 224 then gray g i.toNat j.toNat else 0

/-- `tf.conv2d` of the grayscale image with a 3×3 kernel, `'same'` padding. -/
def conv3 (K : Fin 3 → Fin 3 → ℝ) (g : Grid) (i j : Nat) : ℝ :=
  ∑ a : Fin 3, ∑ b : Fin 3, K a b * grayPad g ((i : ℤ) + (a : ℤ) - 1) ((j : ℤ) + (b : ℤ) - 1)

/-- The horizontal Sobel kernel `[-1,0,1,-2,0,2,-1,0,1]` reshaped `[3,3,1,1]`. -/
def sobelH : Fin 3 → Fin 3 → ℝ := fun a b =>
  match a, b with
  | 0, 0 => -1 | 0, 1 => 0 | 0, 2 => 1
  | 1, 0 => -2 | 1, 1 => 0 | 1, 2 => 2
  | 2, 0 => -1 | 2, 1 => 0 | 2, 2 => 1

/-- The vertical Sobel kernel `[-1,-2,-1,0,0,0,1,2,1]` reshaped `[3,3,1,1]`. -/
def sobelV : Fin 3 → Fin 3 → ℝ := fun a b =>
  match a, b with
  | 0, 0 => -1 | 0, 1 => -2 | 0, 2 => -1
  | 1, 0 => 0 | 1, 1 => 0 | 1, 2 => 0
  | 2, 0 => 1 | 2, 1 => 2 | 2, 2 => 1

/-- The Laplacian kernel `[0,1,0,1,-4,1,0,1,0]` reshaped `[3,3,1,1]`. -/
def lapKernel : Fin 3 → Fin 3 → ℝ := fun a b =>
  match a, b with
  | 0, 0 => 0 | 0, 1 => 1 | 0, 2 => 0
  | 1, 0 => 1 | 1, 1 => -4 | 1, 2 => 1
  | 2, 0 => 0 | 2, 1 => 1 | 2, 2 => 0

/-- `sqrt(sobelH² + sobelV²)`: the per-pixel gradient magnitude. -/
def gradMag (g : Grid) (i j : Nat) : ℝ :=
  Real.sqrt ((conv3 sobelH g i j) ^ 2 + (conv3 sobelV g i j) ^ 2)

/-- `region.mean()` of a 32×32 slice of the gradient-magnitude image that
starts at row `r0`, column `c0`. -/
def regionMean (g : Grid) (r0 c0 : Nat) : ℝ :=
  (∑ i ∈ Finset.range 32, ∑ j ∈ Finset.range 32, gradMag g (r0 + i) (c0 + j)) / 1024

/-- A single corner's score: `Math.min(10, score * 20)`. -/
def cornerScoreAt (g : Grid) (r0 c0 : Nat) : ℝ := min 10 (regionMean g r0 c0 * 20)

/-- `calculateCornersScore` (cardAnalyzer lines 307–340): the mean of the four
32×32 corner-region scores at offsets (0,0), (0,192), (192,0), (192,192). -/
def calculateCornersScore (g : Grid) : ℝ :=
  (cornerScoreAt g 0 0 + cornerScoreAt g 0 192 +
    cornerScoreAt g 192 0 + cornerScoreAt g 192 192) / 4

/-- The mean gradient magnitude over the whole 224×224 image. -/
def imageGradMean (g : Grid) : ℝ :=
  (∑ i ∈ Finset.range 224, ∑ j ∈ Finset.range 224, gradMag g i j) / 50176

/-- `calculateEdgesScore` (cardAnalyzer lines 342–363). -/
def calculateEdgesScore (g : Grid) : ℝ := min 10 (imageGradMean g * 20)

/-- The Laplacian response image. -/
def lapResp (g : Grid) (i j : Nat) : ℝ := conv3 lapKernel g i j

/-- The mean of the Laplacian response. -/
def lapMean (g : Grid) : ℝ :=
  (∑ i ∈ Finset.range 224, ∑ j ∈ Finset.range 224, lapResp g i j) / 50176

/-- `tf.moments(laplacian).variance`. -/
def lapVariance (g : Grid) : ℝ :=
  (∑ i ∈ Finset.range 224, ∑ j ∈ Finset.range 224, (lapResp g i j - lapMean g) ^ 2) / 50176

/-- `calculateSurfaceScore` (cardAnalyzer lines 365–380). -/
def calculateSurfaceScore (g : Grid) : ℝ := min 10 (lapVariance g * 100)

/-- `tf.moments(tensor).mean.dataSync()`: `tf.moments` reduces over *all* axes,
so the mean is a scalar and `dataSync()` is a one-element array. -/
def momentsMeanData (g : Grid) : List ℝ :=
  [(∑ i ∈ Finset.range 224, ∑ j ∈ Finset.range 224,
      (g i j 0 + g i j 1 + g i j 2)) / 150528]

/-- `calculateCentering` (cardAnalyzer lines 294–305).  `center` has a single
element, so the read `center[1]` is out of bounds: in JS it yields `undefined`,
`undefined - 112` is NaN, and NaN propagates through `sqrt`, `/` and
`Math.max` to the returned score.  An out-of-bounds read is modelled by the
`none` branch of the match. -/
def calculateCentering (g : Grid) : JSNum :=
  let center := momentsMeanData g
  match center.get? 0, center.get? 1 with
  | some c0, some c1 =>
    some (max 0 (10 - Real.sqrt ((c0 - 112) ^ 2 + (c1 - 112) ^ 2) / 22.4))
  | _, _ => none

/-! ## Spec-side centering (refinement reference for claim C1)

The specification describes the centering extractor as computing the
intensity-weighted *spatial* centroid of the grid and scoring its distance
from (112,112).  The definitions below follow the spec's words, for
comparison with `calculateCentering` above. -/

/-- Total intensity at a pixel (summed over the three channels). -/
def pixelIntensity (g : Grid) (i j : Nat) : ℝ := g i j 0 + g i j 1 + g i j 2

/-- Modelled from the spec (§4.2): the intensity-weighted spatial centroid
of the grid across its two spatial axes. -/
def specCentroid (g : Grid) : ℝ × ℝ :=
  let total := ∑ i ∈ Finset.range 224, ∑ j ∈ Finset.range 224, pixelIntensity g i j
  ((∑ i ∈ Finset.range 224, ∑ j ∈ Finset.range 224, (i : ℝ) * pixelIntensity g i j) / total,
   (∑ i ∈ Finset.range 224, ∑ j ∈ Finset.range 224, (j : ℝ) * pixelIntensity g i j) / total)

/-- Modelled from the spec (§4.2): `max(0, 10 − distance(center,(112,112)) / 22.4)`
with `center` the intensity-weighted centroid. -/
def specCenteringScore (g : Grid) : ℝ :=
  let c := specCentroid g
  max 0 (10 - Real.sqrt ((c.1 - 112) ^ 2 + (c.2 - 112) ^ 2) / 22.4)

/-! ## The orchestrator `analyzeCard` -/

/-- The completed grading record returned by `analyzeCard`. -/
structure CardGradingResult where
  centering : JSNum
  corners : JSNum
  edges : JSNum
  surface : JSNum
  grade : JSNum
  cardDetails : CardDetails

/-- The aggregation-and-rounding tail of `analyzeCard` (lines 545–556):
`grade = (centering + corners + edges + surface) / 4`, computed on the
full-precision scores, then every field rounded with `toFixed(1)`. -/
def assembleGrading (centering : JSNum) (corners edges surface : ℝ)
    (cd : CardDetails) : CardGradingResult :=
  let grade := jdiv (jadd (jadd (jadd centering (some corners)) (some edges))
    (some surface)) (some 4)
  { centering := toFixed1 centering, corners := toFixed1 (some corners),
    edges := toFixed1 (some edges), surface := toFixed1 (some surface),
    grade := toFixed1 grade, cardDetails := cd }

/-- `analyzeCard` (cardAnalyzer lines 482–561).  `ocr` is the OCR collaborator
(`none` = the recognizer threw), `decode` is the image decode/preprocess
collaborator (`Except.error` = `preprocessImage` threw). -/
def analyzeCard (ocr : String → Option String) (decode : String → Except String Grid)
    (frontImage backImage : String) : Except String CardGradingResult :=
  let frontDetails := extractCardText ocr frontImage
  let merged :=
    if backImage = "" then frontDetails
    else mergeBack frontDetails (extractCardText ocr backImage)
  let cardDetails := identifyCard merged
  if backImage = "" then
    Except.ok { centering := some 0, corners := some 0, edges := some 0,
                surface := some 0, grade := some 0, cardDetails := cardDetails }
  else
    match decode frontImage with
    | Except.error e => Except.error e
    | Except.ok g =>
      Except.ok (assembleGrading (calculateCentering g) (calculateCornersScore g)
        (calculateEdgesScore g) (calculateSurfaceScore g) cardDetails)

end

/-- The all-black normalized image. -/
def zeroGrid : Grid := fun _ _ _ => 0

/-- A grid whose whole intensity sits at the pixel (112,112): its
intensity-weighted centroid is exactly (112,112). -/
def deltaGrid : Grid := fun i j _ => if i = 112 ∧ j = 112 then 1 else 0
/-! Sanity checks on concrete inputs. -/

example : jsIncludes "sunset boulevard" "set" = true := by decide

example : hasDigitRun3 "ab12c3".toList = false := by decide

example : hasDigitRun3 "ab123c".toList = true := by decide

example : numberMatchStr "no 45/100 here".toList = some "45/100" := by decide

example : numberMatchStr "card 12/a".toList = some "12" := by decide

example : lineSetValue "Alpha Set" = some "Unknown Set" := by decide

example : lineSetValue "Sunset Boulevard" = some "Boulevard" := by decide

example : lineSetValue "nothing here" = none := by decide

example : (extractFromText "Pikachu\n© 2024 Pokemon Base\n45/100").name = "Pikachu" := by decide

example : (extractFromText "Pikachu\n© 2024 Pokemon Base\n45/100").set = "2024 Pokemon Base" := by
  decide

example : (extractFromText "Pikachu\n© 2024 Pokemon Base\n45/100").number = "2024" := by
  decide

example : (extractFromText "Pikachu\n© 2024 Pokemon Base\n45/100").cardType =
    some CardCategory.trading := by decide

/-! ## Helper lemmas -/

/-- Both marketplace searches return `null`, so the identification step is
the identity on `CardDetails`. -/
theorem identifyCard_eq (cd : CardDetails) : identifyCard cd = cd := by
  cases h : cd.cardType with
  | none => simp [identifyCard, h]
  | some t => cases t <;> simp [identifyCard, h, searchTCGPlayer, searchSportsCard]

/-- Text extraction never sets the confirmation flag. -/
theorem extractCardText_isConfirmed (ocr : String → Option String) (imageData : String) :
    (extractCardText ocr imageData).isConfirmed = false := by
  cases h : ocr imageData <;> simp [extractCardText, h, extractFromText]

/-- The merge step keeps the front pass's confirmation flag. -/
theorem mergeBack_isConfirmed (front back : CardDetails) :
    (mergeBack front back).isConfirmed = front.isConfirmed := rfl

/-- Taking the head of a filtered list (with default `""`) is `find?`. -/
theorem head_filter_eq_find (p : String → Bool) (l : List String) :
    (match l.filter p with | [] => "" | n :: _ => n) = (l.find? p).getD "" := by
  induction l with
  | nil => rfl
  | cons a t ih => by_cases h : p a <;> simp [List.filter_cons, List.find?_cons, h, ih]

/-- Keyword scanning: the boolean `any`/`includes` fold of the source is
exactly existence of a keyword occurring in the text. -/
theorem any_includes_iff (s : String) (kws : List String) :
    kws.any (fun k => jsIncludes s k) = true ↔ ∃ kw ∈ kws, kw.toList <:+: s.toList := by
  simp [List.any_eq_true, jsIncludes]

/-! ## Claim theorems -/

/-- C2: `analyzeCard(frontImage, "")` does not fail: numeric scoring is
skipped, the result has centering = corners = edges = surface = grade = 0,
and `cardDetails` is exactly the front image's text extraction. -/
theorem C2_empty_back_skips_scoring (ocr : String → Option String)
    (decode : String → Except String Grid) (frontImage : String) :
    analyzeCard ocr decode frontImage "" =
      Except.ok { centering := some 0, corners := some 0, edges := some 0,
                  surface := some 0, grade := some 0,
                  cardDetails := extractCardText ocr frontImage } := by
  simp [analyzeCard, identifyCard_eq]

/-- C3 counterexample: with the OCR collaborator *succeeding but returning no
text*, the extractor's fields are empty strings, not the "Unknown" sentinel
strings the claim asserts. -/
theorem C3_counterexample :
    (extractCardText (fun _ => some "") "front").name = "" ∧
    (extractCardText (fun _ => some "") "front").set = "" ∧
    (extractCardText (fun _ => some "") "front").number = "" ∧
    ("" : String) ≠ "Unknown Card" ∧ ("" : String) ≠ "Unknown Set" ∧
    ("" : String) ≠ "Unknown" := by
  refine ⟨by decide, by decide, by decide, by decide, by decide, by decide⟩

/-- C3 (amended): the extractor never aborts.  When the OCR collaborator
*fails* (throws), every field falls back to its "Unknown" sentinel and the
category is unset; when it merely *returns no text*, the fields remain the
empty-string defaults and the category is unset. -/
theorem C3_amended (imageData : String) :
    extractCardText (fun _ => none) imageData =
      { name := "Unknown Card", set := "Unknown Set", number := "Unknown",
        isConfirmed := false, cardType := none } ∧
    extractCardText (fun _ => some "") imageData =
      { name := "", set := "", number := "", isConfirmed := false,
        cardType := none } := by
  constructor
  · rfl
  · show extractFromText "" = _
    decide

/-- C6: the back pass's number and set overwrite the front pass's values only
when non-empty, and the back pass never changes the name or the category. -/
theorem C6_merge_rule (front back : CardDetails) :
    (mergeBack front back).name = front.name ∧
    (mergeBack front back).cardType = front.cardType ∧
    (mergeBack front back).number =
      (if back.number = "" then front.number else back.number) ∧
    (mergeBack front back).set = (if back.set = "" then front.set else back.set) := by
  refine ⟨rfl, rfl, ?_, ?_⟩ <;> simp [mergeBack, jsOrElse]

/-- C7: category classification lower-cases the full text; any sports keyword
(rookie, season, stats, team, record) gives `sports`, otherwise any trading
keyword (pokemon, magic, yugioh, mtg) gives `trading`, otherwise the category
is unset — so sports keywords take priority when both families occur. -/
theorem C7_category_rule (text : String) :
    ((∃ kw ∈ sportKeywords, kw.toList <:+: (jsToLower text).toList) →
      (extractFromText text).cardType = some CardCategory.sports) ∧
    ((¬ ∃ kw ∈ sportKeywords, kw.toList <:+: (jsToLower text).toList) →
      (∃ kw ∈ tradingKeywords, kw.toList <:+: (jsToLower text).toList) →
      (extractFromText text).cardType = some CardCategory.trading) ∧
    ((¬ ∃ kw ∈ sportKeywords, kw.toList <:+: (jsToLower text).toList) →
      (¬ ∃ kw ∈ tradingKeywords, kw.toList <:+: (jsToLower text).toList) →
      (extractFromText text).cardType = none) := by
  have hs := any_includes_iff (jsToLower text) sportKeywords
  have ht := any_includes_iff (jsToLower text) tradingKeywords
  refine ⟨fun h => ?_, fun hns h => ?_, fun hns hnt => ?_⟩
  · simp [extractFromText, hs.mpr h]
  · have hs' : sportKeywords.any (fun k => jsIncludes (jsToLower text) k) = false := by
      rw [← Bool.not_eq_true, hs]; exact hns
    simp [extractFromText, hs', ht.mpr h]
  · have hs' : sportKeywords.any (fun k => jsIncludes (jsToLower text) k) = false := by
      rw [← Bool.not_eq_true, hs]; exact hns
    have ht' : tradingKeywords.any (fun k => jsIncludes (jsToLower text) k) = false := by
      rw [← Bool.not_eq_true, ht]; exact hnt
    simp [extractFromText, hs', ht']

/-- C7 witness: a text containing both "rookie" and "pokemon" classifies as
sports. -/
theorem C7_witness :
    (extractFromText "rookie pokemon").cardType = some CardCategory.sports :=
  (C7_category_rule "rookie pokemon").1 ⟨"rookie", by decide, by decide⟩

/-- C8: the name is the first of the first three lines passing the filter
(length > 3, no ©, no 3-digit run, no case-insensitive "set"/"series"),
and stays at the empty default when none passes; the filter is exactly that
conjunction. -/
theorem C8_name_heuristic (text : String) :
    (extractFromText text).name = (((linesOf text).take 3).find? namePred).getD "" ∧
    (∀ line : String, namePred line = true ↔
      (3 < line.length ∧ jsIncludes line "©" = false ∧
       hasDigitRun3 line.toList = false ∧
       jsIncludes (jsToLower line) "set" = false ∧
       jsIncludes (jsToLower line) "series" = false)) := by
  constructor
  · simp only [extractFromText]
    exact head_filter_eq_find namePred ((linesOf text).take 3)
  · intro line
    simp [namePred, Bool.and_eq_true, Bool.not_eq_true', and_assoc]

/-- The assembled grading record carries the details it is given. -/
theorem assembleGrading_cardDetails (c : JSNum) (k e s : ℝ) (cd : CardDetails) :
    (assembleGrading c k e s cd).cardDetails = cd := rfl

/-- A line whose lower-casing contains "set" or "series", or which contains
the copyright mark, is matched by the set regex. -/
theorem setMatchRest_present (l : List Char)
    (h : "set".toList <:+: l.map Char.toLower ∨
      "series".toList <:+: l.map Char.toLower ∨ '©' ∈ l) :
    (setMatchRest l).isSome = true := by
  induction l with
  | nil => exact absurd h (by decide)
  | cons c rest ih =>
    cases htok : setTokenLen (c :: rest) with
    | some n => simp only [setMatchRest, htok, Option.isSome_some]
    | none =>
      have hstep : setMatchRest (c :: rest) = setMatchRest rest := by
        simp only [setMatchRest, htok]
      have hneg := htok
      unfold setTokenLen at hneg
      split at hneg
      next h1 => exact absurd hneg (by simp)
      next h1 =>
        split at hneg
        next h2 => exact absurd hneg (by simp)
        next h2 =>
          split at hneg
          next h3 => exact absurd hneg (by simp)
          next h3 =>
            rw [hstep]
            apply ih
            rcases h with hset | hser | hmem
            · rcases List.infix_cons_iff.mp (by simpa using hset) with hp | hi
              · exact absurd (List.isPrefixOf_iff_prefix.mpr (by simpa using hp)) h1
              · exact Or.inl hi
            · rcases List.infix_cons_iff.mp (by simpa using hser) with hp | hi
              · exact absurd (List.isPrefixOf_iff_prefix.mpr (by simpa using hp)) h2
              · exact Or.inr (Or.inl hi)
            · rcases List.mem_cons.mp hmem with hc | hr
              · exact absurd (by simp [← hc]) h3
              · exact Or.inr (Or.inr hr)

/-- C9: both marketplace searches return `null` on every input, the
identification step never changes the details, and every successful
`analyzeCard` result is unconfirmed. -/
theorem C9_never_confirmed :
    (∀ n s, searchTCGPlayer n s = none) ∧
    (∀ n c, searchSportsCard n c = none) ∧
    (∀ cd, identifyCard cd = cd) ∧
    (∀ (ocr : String → Option String) (decode : String → Except String Grid)
        (front back : String) (r : CardGradingResult),
      analyzeCard ocr decode front back = Except.ok r →
      r.cardDetails.isConfirmed = false) := by
  refine ⟨fun _ _ => rfl, fun _ _ => rfl, identifyCard_eq, ?_⟩
  intro ocr decode front back r h
  by_cases hb : back = ""
  · subst hb
    simp only [analyzeCard, if_pos rfl, reduceIte, Except.ok.injEq] at h
    rw [← h]
    simp [identifyCard_eq, extractCardText_isConfirmed]
  · simp only [analyzeCard, if_neg hb] at h
    cases hd : decode front with
    | error e => rw [hd] at h; exact absurd h (by simp)
    | ok g =>
      rw [hd, Except.ok.injEq] at h
      rw [← h]
      rw [assembleGrading_cardDetails, identifyCard_eq,
        mergeBack_isConfirmed, extractCardText_isConfirmed]

/-- C9 witness at a concrete run: the empty-back analysis with a throwing
OCR collaborator succeeds and its details are unconfirmed. -/
theorem C9_witness :
    ({ centering := some 0, corners := some 0, edges := some 0, surface := some 0,
       grade := some 0,
       cardDetails := { name := "Unknown Card", set := "Unknown Set",
                        number := "Unknown", isConfirmed := false,
                        cardType := none } } :
      CardGradingResult).cardDetails.isConfirmed = false :=
  C9_never_confirmed.2.2.2 (fun _ => none) (fun _ => Except.error "decode failure")
    "front" ""
    { centering := some 0, corners := some 0, edges := some 0, surface := some 0,
      grade := some 0,
      cardDetails := { name := "Unknown Card", set := "Unknown Set",
                       number := "Unknown", isConfirmed := false, cardType := none } }
    rfl

/-- C10: any line containing "set"/"series" (case-insensitively, also inside
another word) or "©" matches the set regex; a match with no trailing text
yields the non-empty sentinel "Unknown Set"; and a back pass whose set is
"Unknown Set" overwrites whatever set the front pass extracted. -/
theorem C10_set_sentinel_overwrites :
    (∀ line : List Char,
      ("set".toList <:+: line.map Char.toLower ∨
       "series".toList <:+: line.map Char.toLower ∨ '©' ∈ line) →
      (setMatchRest line).isSome = true) ∧
    lineSetValue "Alpha Set" = some "Unknown Set" ∧
    lineSetValue "Sunset Boulevard" = some "Boulevard" ∧
    (extractFromText "Alpha Set").set = "Unknown Set" ∧
    (∀ front back : CardDetails, back.set = "Unknown Set" →
      (mergeBack front back).set = "Unknown Set") := by
  refine ⟨setMatchRest_present, by decide, by decide, by decide, ?_⟩
  intro front back hb
  simp [mergeBack, jsOrElse, hb]

/-- C10 witness: the regex matches "Sunset", and a back pass carrying the
"Unknown Set" sentinel overwrites a genuine front-pass set in the merge. -/
theorem C10_witness :
    (setMatchRest "Sunset".toList).isSome = true ∧
    (mergeBack
      { name := "Pikachu", set := "Base Set", number := "12",
        isConfirmed := false, cardType := none }
      { name := "", set := "Unknown Set", number := "",
        isConfirmed := false, cardType := none }).set = "Unknown Set" :=
  ⟨C10_set_sentinel_overwrites.1 "Sunset".toList (Or.inl (by decide)),
   C10_set_sentinel_overwrites.2.2.2.2 _ _ rfl⟩

/-- `center` is a one-element array, so `center[1]` is out of bounds and the
centering score is NaN on every input. -/
theorem calculateCentering_eq_none (g : Grid) : calculateCentering g = none := rfl

/-- `min 10` of a nonnegative number lies in `[0,10]`. -/
theorem min10_bounds {x : ℝ} (hx : 0 ≤ x) : 0 ≤ min 10 x ∧ min 10 x ≤ 10 :=
  ⟨le_min (by norm_num) hx, min_le_left _ _⟩

theorem gradMag_nonneg (g : Grid) (i j : Nat) : 0 ≤ gradMag g i j :=
  Real.sqrt_nonneg _

theorem regionMean_nonneg (g : Grid) (r0 c0 : Nat) : 0 ≤ regionMean g r0 c0 := by
  refine div_nonneg ?_ (by norm_num)
  exact Finset.sum_nonneg fun i _ => Finset.sum_nonneg fun j _ => gradMag_nonneg g _ _

theorem cornerScoreAt_bounds (g : Grid) (r0 c0 : Nat) :
    0 ≤ cornerScoreAt g r0 c0 ∧ cornerScoreAt g r0 c0 ≤ 10 :=
  min10_bounds (mul_nonneg (regionMean_nonneg g r0 c0) (by norm_num))

theorem corners_bounds (g : Grid) :
    0 ≤ calculateCornersScore g ∧ calculateCornersScore g ≤ 10 := by
  obtain ⟨a1, b1⟩ := cornerScoreAt_bounds g 0 0
  obtain ⟨a2, b2⟩ := cornerScoreAt_bounds g 0 192
  obtain ⟨a3, b3⟩ := cornerScoreAt_bounds g 192 0
  obtain ⟨a4, b4⟩ := cornerScoreAt_bounds g 192 192
  unfold calculateCornersScore
  constructor <;> linarith

theorem imageGradMean_nonneg (g : Grid) : 0 ≤ imageGradMean g := by
  refine div_nonneg ?_ (by norm_num)
  exact Finset.sum_nonneg fun i _ => Finset.sum_nonneg fun j _ => gradMag_nonneg g _ _

theorem edges_bounds (g : Grid) :
    0 ≤ calculateEdgesScore g ∧ calculateEdgesScore g ≤ 10 :=
  min10_bounds (mul_nonneg (imageGradMean_nonneg g) (by norm_num))

theorem lapVariance_nonneg (g : Grid) : 0 ≤ lapVariance g := by
  refine div_nonneg ?_ (by norm_num)
  exact Finset.sum_nonneg fun i _ => Finset.sum_nonneg fun j _ => sq_nonneg _

theorem surface_bounds (g : Grid) :
    0 ≤ calculateSurfaceScore g ∧ calculateSurfaceScore g ≤ 10 :=
  min10_bounds (mul_nonneg (lapVariance_nonneg g) (by norm_num))

theorem validGrid_zeroGrid : ValidGrid zeroGrid :=
  fun _ _ _ _ _ _ => ⟨le_refl 0, zero_le_one⟩

/-- Summing a function concentrated at (112,112) over one spatial axis. -/
theorem delta_inner_sum (f : Nat → ℝ) (i : Nat) :
    (∑ j ∈ Finset.range 224, if i = 112 ∧ j = 112 then f j else 0) =
      if i = 112 then f 112 else 0 := by
  by_cases h : i = 112
  · subst h
    simp only [true_and]
    rw [Finset.sum_ite_eq' (Finset.range 224) 112 f]
    simp
  · simp [h]

theorem pixelIntensity_delta (i j : Nat) :
    pixelIntensity deltaGrid i j = if i = 112 ∧ j = 112 then 3 else 0 := by
  by_cases h : i = 112 ∧ j = 112
  · simp only [pixelIntensity, deltaGrid, if_pos h]
    norm_num
  · simp [pixelIntensity, deltaGrid, h]

/-- The intensity-weighted spatial centroid of `deltaGrid` is exactly
(112,112). -/
theorem specCentroid_delta : specCentroid deltaGrid = (112, 112) := by
  have htot : (∑ i ∈ Finset.range 224, ∑ j ∈ Finset.range 224,
      pixelIntensity deltaGrid i j) = 3 := by
    have step : ∀ i ∈ Finset.range 224,
        (∑ j ∈ Finset.range 224, pixelIntensity deltaGrid i j) =
          if i = 112 then (3 : ℝ) else 0 := by
      intro i _
      rw [Finset.sum_congr rfl fun j _ => pixelIntensity_delta i j]
      exact delta_inner_sum (fun _ => 3) i
    rw [Finset.sum_congr rfl step,
      Finset.sum_ite_eq' (Finset.range 224) 112 (fun _ => (3 : ℝ))]
    simp
  have hrow : (∑ i ∈ Finset.range 224, ∑ j ∈ Finset.range 224,
      (i : ℝ) * pixelIntensity deltaGrid i j) = 336 := by
    have step : ∀ i ∈ Finset.range 224,
        (∑ j ∈ Finset.range 224, (i : ℝ) * pixelIntensity deltaGrid i j) =
          if i = 112 then (i : ℝ) * 3 else 0 := by
      intro i _
      have hterm : ∀ j ∈ Finset.range 224,
          (i : ℝ) * pixelIntensity deltaGrid i j =
            if i = 112 ∧ j = 112 then (i : ℝ) * 3 else 0 := by
        intro j _
        rw [pixelIntensity_delta]
        simp only [mul_ite, mul_zero]
      rw [Finset.sum_congr rfl hterm]
      exact delta_inner_sum (fun _ => (i : ℝ) * 3) i
    rw [Finset.sum_congr rfl step,
      Finset.sum_ite_eq' (Finset.range 224) 112 (fun i => (i : ℝ) * 3)]
    norm_num
  have hcol : (∑ i ∈ Finset.range 224, ∑ j ∈ Finset.range 224,
      (j : ℝ) * pixelIntensity deltaGrid i j) = 336 := by
    have step : ∀ i ∈ Finset.range 224,
        (∑ j ∈ Finset.range 224, (j : ℝ) * pixelIntensity deltaGrid i j) =
          if i = 112 then (112 : ℝ) * 3 else 0 := by
      intro i _
      have hterm : ∀ j ∈ Finset.range 224,
          (j : ℝ) * pixelIntensity deltaGrid i j =
            if i = 112 ∧ j = 112 then (j : ℝ) * 3 else 0 := by
        intro j _
        rw [pixelIntensity_delta]
        simp only [mul_ite, mul_zero]
      rw [Finset.sum_congr rfl hterm]
      exact delta_inner_sum (fun j => (j : ℝ) * 3) i
    rw [Finset.sum_congr rfl step,
      Finset.sum_ite_eq' (Finset.range 224) 112 (fun _ => (112 : ℝ) * 3)]
    norm_num
  unfold specCentroid
  rw [htot, hrow, hcol]
  norm_num

/-- C1: the spec's centering — the intensity-weighted centroid scored with
`max(0, 10 − distance/22.4)` — gives 10.0 on a grid with centroid exactly
(112,112); the code's `calculateCentering` instead reads `center[1]` out of
bounds on the scalar `tf.moments` mean and returns NaN on that same grid
(indeed on every grid). -/
theorem C1_centering_nan_not_centroid :
    specCenteringScore deltaGrid = 10 ∧ calculateCentering deltaGrid = none := by
  constructor
  · show max 0 (10 - Real.sqrt (((specCentroid deltaGrid).1 - 112) ^ 2 +
      ((specCentroid deltaGrid).2 - 112) ^ 2) / 22.4) = 10
    rw [specCentroid_delta]
    norm_num
  · exact calculateCentering_eq_none deltaGrid

/-- C4 counterexample: the all-black grid is valid, yet its centering score is
NaN, hence not a real number in [0,10]. -/
theorem C4_counterexample :
    ValidGrid zeroGrid ∧
    ¬ ∃ x : ℝ, calculateCentering zeroGrid = some x ∧ 0 ≤ x ∧ x ≤ 10 := by
  refine ⟨validGrid_zeroGrid, ?_⟩
  rintro ⟨x, hx, -⟩
  rw [calculateCentering_eq_none] at hx
  exact Option.noConfusion hx

/-- C4 (amended): for every valid 224×224×3 grid the corners, edges and
surface scores lie in [0,10]; the centering score, however, is NaN on every
grid (out-of-bounds read of the scalar moments array), so the clamp invariant
holds only for the three gradient-based scores. -/
theorem C4_amended (g : Grid) (_hg : ValidGrid g) :
    (0 ≤ calculateCornersScore g ∧ calculateCornersScore g ≤ 10) ∧
    (0 ≤ calculateEdgesScore g ∧ calculateEdgesScore g ≤ 10) ∧
    (0 ≤ calculateSurfaceScore g ∧ calculateSurfaceScore g ≤ 10) ∧
    calculateCentering g = none :=
  ⟨corners_bounds g, edges_bounds g, surface_bounds g, calculateCentering_eq_none g⟩

/-- C4 witness: the amended bounds at the all-black grid. -/
theorem C4_witness :
    ValidGrid zeroGrid ∧
    ((0 ≤ calculateCornersScore zeroGrid ∧ calculateCornersScore zeroGrid ≤ 10) ∧
     (0 ≤ calculateEdgesScore zeroGrid ∧ calculateEdgesScore zeroGrid ≤ 10) ∧
     (0 ≤ calculateSurfaceScore zeroGrid ∧ calculateSurfaceScore zeroGrid ≤ 10) ∧
     calculateCentering zeroGrid = none) :=
  ⟨validGrid_zeroGrid, C4_amended zeroGrid validGrid_zeroGrid⟩

/-- C5: the grade is the arithmetic mean of the four full-precision scores,
rounded to one decimal *after* averaging, while the four component fields are
rounded independently; (10, 8, 6, 4) yields grade exactly 7; and rounding
after averaging genuinely differs from averaging pre-rounded scores. -/
theorem C5_grade_aggregation :
    (∀ (c k e s : ℝ) (cd : CardDetails),
      assembleGrading (some c) k e s cd =
        { centering := some (round1 c), corners := some (round1 k),
          edges := some (round1 e), surface := some (round1 s),
          grade := some (round1 ((c + k + e + s) / 4)), cardDetails := cd }) ∧
    (∀ cd : CardDetails, (assembleGrading (some 10) 8 6 4 cd).grade = some 7) ∧
    round1 ((0.04 + 0.04 + 0.04 + 0.08) / 4) ≠
      round1 ((round1 0.04 + round1 0.04 + round1 0.04 + round1 0.08) / 4) := by
  refine ⟨fun c k e s cd => rfl, fun cd => ?_, ?_⟩
  · show some (round1 (((10 : ℝ) + 8 + 6 + 4) / 4)) = some 7
    norm_num [round1, round_eq]
  · norm_num [round1, round_eq]
